import Mathlib

/-!
Verification of the note-server Express application of this repository
(`src/index.js` and `src/router/note.router.js`) against its
natural-language specification.

The application is wiring code over Express: it registers a middleware
chain (static files, JSON body parsing, URL-encoded body parsing, CORS,
cache-control headers), mounts a router with three GET routes, configures
the EJS view engine, and listens on a port.  We embed:

* the router's registered routes (`note_router`);
* the CORS configuration object (`corsConfig`);
* the port computation (`port`);
* the top-level effect sequence of `index.js` (`indexProgram`);
* the request-dispatch semantics of the registered middleware chain
  (`runChain` / `handle`), with Express's documented behaviour for the
  framework pieces: `express.static` either serves a file and terminates
  the request or passes it on; the body parsers annotate the request and
  pass it on; `cors` adds response headers for simple requests and passes
  them on; a request that falls off the end of the chain receives
  Express's default 404 response (status 404, body "Cannot METHOD /path").

The `public` directory served by `express.static` is not part of the
provided source, so its contents are abstracted as a predicate
`isStatic : String → Bool` saying which request paths resolve to a file
in it.  The process environment is abstracted as
`env : String → Option String`.
-/

set_option autoImplicit false

namespace NoteServer

/-- HTTP methods relevant to this application: the router registers GET
routes only, and the CORS configuration names GET, POST and PUT. -/
inductive Method where
  | GET
  | POST
  | PUT
  | DELETE
  deriving DecidableEq, Repr

/-- The method name as it appears in an HTTP request line (used by
Express's default 404 body "Cannot METHOD /path"). -/
def methodName : Method → String
  | .GET => "GET"
  | .POST => "POST"
  | .PUT => "PUT"
  | .DELETE => "DELETE"

/-- The controller functions referenced by `router/note.router.js`
(`noteController.viewHome`, `viewExpress`, `viewHTTP`). -/
inductive Handler where
  | viewHome
  | viewExpress
  | viewHTTP
  deriving DecidableEq, Repr

/-- A route registered on an Express router: method, exact path, handler. -/
structure Route where
  method : Method
  path : String
  handler : Handler
  deriving DecidableEq, Repr

/-- From `src/router/note.router.js` lines 5-7:
`note_router.get("/", noteController.viewHome);`
`note_router.get("/express", noteController.viewExpress);`
`note_router.get("/http", noteController.viewHTTP);`
These are the only registrations on the router. -/
def note_router : List Route :=
  [ { method := .GET, path := "/", handler := .viewHome },
    { method := .GET, path := "/express", handler := .viewExpress },
    { method := .GET, path := "/http", handler := .viewHTTP } ]

/-- The options object passed to `cors(...)` in `src/index.js`. -/
structure CorsOptions where
  origin : Option String
  credentials : Bool
  methods : List String
  allowedHeaders : List String
  deriving DecidableEq, Repr

/-- From `src/index.js` lines 21-28: the CORS middleware is configured
with origin `process.env.CLIENT_URL`, credentials `true`, methods
GET/POST/PUT, and allowed headers Content-Type/Authorization. -/
def corsConfig (env : String → Option String) : CorsOptions :=
  { origin := env "CLIENT_URL",
    credentials := true,
    methods := ["GET", "POST", "PUT"],
    allowedHeaders := ["Content-Type", "Authorization"] }

/-- From `src/index.js`: `const port = process.env.PORT || 5000;`.
JavaScript `||` takes the right operand when the left is falsy, which
for an environment variable means unset or the empty string. -/
def port (envPORT : Option String) : String :=
  match envPORT with
  | some s => if s = "" then "5000" else s
  | none => "5000"

/-- From `src/index.js` line 40: `app.set("views", path.join(__dirname, "view"))`. -/
def viewsDir : String := "view"

/-- From `src/index.js` line 41: `app.set("view engine", "ejs")`. -/
def viewEngine : String := "ejs"

/-- Modelled from the spec: `controller/note.controller.js` is not in the
provided source ("controller functions (not included in the provided
source)", "controller (opaque, not in source)").  The spec states
"`GET /` → render home view, `GET /express` → render Express-topic view,
`GET /http` → render HTTP-topic view", so each controller function
renders one view from the views directory. -/
def controllerView : Handler → String
  | .viewHome => "home"
  | .viewExpress => "express"
  | .viewHTTP => "http"

/-- An incoming HTTP request, reduced to what the wiring code inspects:
method and path. -/
structure Request where
  method : Method
  path : String
  deriving DecidableEq, Repr

/-- The body of an HTTP response in this application: a file served by
`express.static`, a view rendered through the EJS engine, or Express's
default 404 body "Cannot METHOD /path" for a request no route matched. -/
inductive Body where
  | staticFile (path : String)
  | rendered (dir viewName : String)
  | cannotGet (methodPath : String × String)
  deriving DecidableEq, Repr

/-- An HTTP response: status code, accumulated response headers, body. -/
structure Response where
  status : Nat
  headers : List (String × String)
  body : Body
  deriving DecidableEq, Repr

/-- Per-request state threaded through the middleware chain: whether the
two body parsers have processed the request, and the response headers
set so far. -/
structure Conn where
  jsonParsed : Bool
  urlencodedParsed : Bool
  resHeaders : List (String × String)
  deriving DecidableEq, Repr

/-- The request state before any middleware has run. -/
def Conn.init : Conn :=
  { jsonParsed := false, urlencodedParsed := false, resHeaders := [] }

/-- The pipeline stages a request can pass through.  The first six are the
middleware registered by `app.use` in `src/index.js`, in source order;
`controllerRun` and `ejsRender` are the stages inside a matched route
(controller call, then `res.render` through the EJS engine). -/
inductive Step where
  | staticFiles
  | jsonParse
  | urlencodedParse
  | corsCheck
  | cacheControl
  | routerDispatch
  | controllerRun
  | ejsRender
  deriving DecidableEq, Repr

/-- The middleware chain registered in `src/index.js`, in registration
order: `express.static` (line 13), `express.json()` (line 16),
`express.urlencoded({extended: false})` (line 19), `cors(...)`
(lines 21-28), the cache-control header middleware (lines 30-35), and
the router mounted at "/" (line 38). -/
def chain : List Step :=
  [.staticFiles, .jsonParse, .urlencodedParse, .corsCheck, .cacheControl,
   .routerDispatch]

/-- The headers the `cors` middleware adds to a simple (non-preflight)
request before calling `next()`: the configured origin (the `cors`
package defaults to "*" when no origin is configured) and, because
`credentials: true`, the credentials header. -/
def corsHeaders (env : String → Option String) : List (String × String) :=
  [("Access-Control-Allow-Origin", ((corsConfig env).origin).getD "*"),
   ("Access-Control-Allow-Credentials", "true")]

/-- The headers set by the middleware of `src/index.js` lines 30-35
before it calls `next()`. -/
def cacheControlHeaders : List (String × String) :=
  [("Cache-Control", "private, no-cache, no-store, must-revalidate"),
   ("Expires", "-1"),
   ("Pragma", "no-cache")]

/-- Express route matching on the mounted router: the first registration
whose method and exact path match the request. -/
def findRoute (m : Method) (p : String) : Option Route :=
  note_router.find? (fun r => r.method == m && r.path == p)

/-- Result of one middleware: pass the (possibly updated) request state to
the next middleware, or terminate the request with a response (recording
the pipeline stages run inside the terminating middleware). -/
inductive StepResult where
  | next (c : Conn)
  | done (r : Response) (sub : List Step)

/-- One middleware of the chain, with Express's documented behaviour:

* `express.static` serves a 200 response with the file when the request
  path resolves to a file under "public" (abstracted by `isStatic`),
  otherwise calls `next()`;
* `express.json()` and `express.urlencoded({extended: false})` parse the
  request body and call `next()`;
* `cors` adds its response headers to a simple request and calls `next()`;
* the cache-control middleware sets its three headers and calls `next()`
  (`src/index.js` lines 30-35);
* the mounted router dispatches on exact method-and-path match: a match
  runs the controller, which renders its view with status 200; no match
  calls `next()`. -/
def runStep (env : String → Option String) (isStatic : String → Bool)
    (req : Request) (c : Conn) : Step → StepResult
  | .staticFiles =>
      if isStatic req.path then
        .done { status := 200, headers := c.resHeaders,
                body := .staticFile req.path } []
      else .next c
  | .jsonParse => .next { c with jsonParsed := true }
  | .urlencodedParse => .next { c with urlencodedParsed := true }
  | .corsCheck => .next { c with resHeaders := c.resHeaders ++ corsHeaders env }
  | .cacheControl =>
      .next { c with resHeaders := c.resHeaders ++ cacheControlHeaders }
  | .routerDispatch =>
      match findRoute req.method req.path with
      | some r =>
          .done { status := 200, headers := c.resHeaders,
                  body := .rendered viewsDir (controllerView r.handler) }
            [.controllerRun, .ejsRender]
      | none => .next c
  | .controllerRun => .next c
  | .ejsRender => .next c

/-- Run a middleware chain on a request.  Returns the response, the
request state at the moment the response was produced, and the trace of
pipeline stages that ran, in order.  A request that falls off the end of
the chain receives Express's default 404 response. -/
def runChain (env : String → Option String) (isStatic : String → Bool)
    (req : Request) : List Step → Conn → Response × Conn × List Step
  | [], c =>
      ({ status := 404, headers := c.resHeaders,
         body := .cannotGet (methodName req.method, req.path) }, c, [])
  | s :: rest, c =>
      match runStep env isStatic req c s with
      | .done r sub => (r, c, s :: sub)
      | .next c2 =>
          match runChain env isStatic req rest c2 with
          | (r, cf, tr) => (r, cf, s :: tr)

/-- The response the server produces for a request. -/
def handle (env : String → Option String) (isStatic : String → Bool)
    (req : Request) : Response :=
  (runChain env isStatic req chain Conn.init).1

/-- The request state at the moment the response was produced. -/
def finalConn (env : String → Option String) (isStatic : String → Bool)
    (req : Request) : Conn :=
  (runChain env isStatic req chain Conn.init).2.1

/-- The ordered trace of pipeline stages the request passed through. -/
def reqTrace (env : String → Option String) (isStatic : String → Bool)
    (req : Request) : List Step :=
  (runChain env isStatic req chain Conn.init).2.2

/-- The top-level effects `index.js` can perform, in the vocabulary needed
by the claims.  The constructors `useErrorMiddleware`, `use404Handler`
and `processOnHandler` describe registrations (four-argument error
middleware, an explicit catch-all 404 handler, `process.on(event, ...)`)
that Express and Node support but that `index.js` may or may not
perform; their presence in the type lets their absence from the program
be stated. -/
inductive AppEvent where
  | dotenvConfig
  | mongooseSetStrictQuery (b : Bool)
  | callConnectDB
  | useMiddleware (s : Step)
  | mountRouter (path : String) (routes : List Route)
  | setViews (dir : String)
  | setViewEngine (engine : String)
  | listen (p : String)
  | useErrorMiddleware
  | use404Handler
  | processOnHandler (event : String)
  deriving DecidableEq, Repr

/-- The top-level statements of `src/index.js`, in execution order:
`require("dotenv").config()`, `mongoose.set("strictQuery", false)`,
`connectDB()` (line 10), the five `app.use` middleware registrations
(lines 13-35), mounting the note router at "/" (line 38), the two
`app.set` calls (lines 40-41), and `app.listen(port, ...)` (line 48). -/
def indexProgram (env : String → Option String) : List AppEvent :=
  [.dotenvConfig,
   .mongooseSetStrictQuery false,
   .callConnectDB,
   .useMiddleware .staticFiles,
   .useMiddleware .jsonParse,
   .useMiddleware .urlencodedParse,
   .useMiddleware .corsCheck,
   .useMiddleware .cacheControl,
   .mountRouter "/" note_router,
   .setViews viewsDir,
   .setViewEngine viewEngine,
   .listen (port (env "PORT"))]

/-- Does the event call `connectDB`? -/
def AppEvent.isConnectDB : AppEvent → Bool
  | .callConnectDB => true
  | _ => false

/-- Does the event start the listener? -/
def AppEvent.isListen : AppEvent → Bool
  | .listen _ => true
  | _ => false

/-- Does the event mount a router (the only way `index.js` attaches
routes to the application)? -/
def AppEvent.isMount : AppEvent → Bool
  | .mountRouter _ _ => true
  | _ => false

/-- Does the event register any recovery for failed requests or an
unhandled exception: error-handling (four-argument) middleware, an
explicit 404 handler, or a process-level handler such as
`process.on("uncaughtException", ...)`? -/
def AppEvent.isRecoveryReg : AppEvent → Bool
  | .useErrorMiddleware => true
  | .use404Handler => true
  | .processOnHandler _ => true
  | _ => false

/-- The options object passed to `express.urlencoded(...)`. -/
structure UrlencodedOptions where
  extended : Bool
  deriving DecidableEq, Repr

/-- From `src/index.js` line 19: `express.urlencoded({ extended: false })`. -/
def urlencodedConfig : UrlencodedOptions := { extended := false }

/-- Written from the SPEC's words, for comparison with the code's pipeline
(section 4: "static files, JSON body parsing, CORS check, cache-control
header injection) → router dispatch by exact path match → controller →
EJS template render").  This is the spec's claimed traversal order; the
code's actual traversal order is `reqTrace`. -/
def specClaimedPipeline : List Step :=
  [.staticFiles, .jsonParse, .corsCheck, .cacheControl, .routerDispatch,
   .controllerRun, .ejsRender]

/-! ### Helper lemmas: evaluating the chain on a request -/

theorem runChain_nonstatic (env : String → Option String)
    (isStatic : String → Bool) (req : Request)
    (h : isStatic req.path = false) :
    runChain env isStatic req chain Conn.init =
      match findRoute req.method req.path with
      | some r =>
          ({ status := 200, headers := corsHeaders env ++ cacheControlHeaders,
             body := .rendered viewsDir (controllerView r.handler) },
           { jsonParsed := true, urlencodedParsed := true,
             resHeaders := corsHeaders env ++ cacheControlHeaders },
           [.staticFiles, .jsonParse, .urlencodedParse, .corsCheck,
            .cacheControl, .routerDispatch, .controllerRun, .ejsRender])
      | none =>
          ({ status := 404, headers := corsHeaders env ++ cacheControlHeaders,
             body := .cannotGet (methodName req.method, req.path) },
           { jsonParsed := true, urlencodedParsed := true,
             resHeaders := corsHeaders env ++ cacheControlHeaders },
           [.staticFiles, .jsonParse, .urlencodedParse, .corsCheck,
            .cacheControl, .routerDispatch]) := by
  simp only [chain, runChain, runStep, h, Bool.false_eq_true, if_false,
    Conn.init, List.nil_append]
  cases hr : findRoute req.method req.path with
  | none => simp [hr]
  | some r => simp [hr]

theorem runChain_static (env : String → Option String)
    (isStatic : String → Bool) (req : Request)
    (h : isStatic req.path = true) :
    runChain env isStatic req chain Conn.init =
      ({ status := 200, headers := [], body := .staticFile req.path },
       Conn.init, [.staticFiles]) := by
  simp [chain, runChain, runStep, h, Conn.init]

theorem findRoute_not_get (m : Method) (hm : m ≠ .GET) (p : String) :
    findRoute m p = none := by
  cases m with
  | GET => exact absurd rfl hm
  | POST => rfl
  | PUT => rfl
  | DELETE => rfl

theorem findRoute_unknown_path (m : Method) (p : String)
    (h1 : p ≠ "/") (h2 : p ≠ "/express") (h3 : p ≠ "/http") :
    findRoute m p = none := by
  rw [findRoute, List.find?_eq_none]
  intro r hr
  fin_cases hr <;>
    simp only [Bool.and_eq_true, beq_iff_eq, not_and] <;>
    intro _ hp <;> [exact h1 hp.symm; exact h2 hp.symm; exact h3 hp.symm]

/-! ### Claims -/

/-- Claim C1: the note router registers exactly three routes, all GET:
"/" handled by `noteController.viewHome`, "/express" by
`noteController.viewExpress`, "/http" by `noteController.viewHTTP`, and
nothing else. -/
theorem claim_C1_router_registers_three_get_routes :
    note_router.map (fun r => (r.method, r.path, r.handler)) =
      [(Method.GET, "/", Handler.viewHome),
       (Method.GET, "/express", Handler.viewExpress),
       (Method.GET, "/http", Handler.viewHTTP)] ∧
    note_router.all (fun r => r.method == Method.GET) = true := by
  decide

/-- Claim C2: a request whose path is none of "/", "/express", "/http"
(and which the static-file middleware does not serve, the contents of
the absent "public" directory being abstract) falls off the end of the
chain and receives Express's default 404 response; no registered
middleware terminates it with any other status. -/
theorem claim_C2_unknown_path_gets_default_404
    (env : String → Option String) (isStatic : String → Bool)
    (req : Request) (hs : isStatic req.path = false)
    (h1 : req.path ≠ "/") (h2 : req.path ≠ "/express")
    (h3 : req.path ≠ "/http") :
    (handle env isStatic req).status = 404 ∧
    (handle env isStatic req).body
      = .cannotGet (methodName req.method, req.path) := by
  have hr := findRoute_unknown_path req.method req.path h1 h2 h3
  rw [handle, runChain_nonstatic env isStatic req hs, hr]
  exact ⟨rfl, rfl⟩

/-- Witness for C2 at the concrete request GET "/about". -/
theorem claim_C2_witness :
    (handle (fun _ => none) (fun _ => false)
        { method := .GET, path := "/about" }).status = 404 ∧
    (handle (fun _ => none) (fun _ => false)
        { method := .GET, path := "/about" }).body
      = .cannotGet ("GET", "/about") :=
  claim_C2_unknown_path_gets_default_404 (fun _ => none) (fun _ => false)
    { method := .GET, path := "/about" } rfl
    (by decide) (by decide) (by decide)

/-- Claim C3: every route registered on the router is a GET route, the
router mount is the only route attachment `index.js` performs, the CORS
configuration allows GET, POST and PUT, and no POST or PUT request
matches any route. -/
theorem claim_C3_no_post_put_handlers :
    (∀ r ∈ note_router, r.method = Method.GET) ∧
    (∀ env, (corsConfig env).methods = ["GET", "POST", "PUT"]) ∧
    (∀ env, (indexProgram env).filter AppEvent.isMount
      = [.mountRouter "/" note_router]) ∧
    (∀ p : String, findRoute .POST p = none ∧ findRoute .PUT p = none) := by
  refine ⟨?_, fun env => rfl, fun env => rfl, fun p => ⟨rfl, rfl⟩⟩
  intro r hr
  fin_cases hr <;> rfl

/-- Witness for C3 at concrete inputs. -/
theorem claim_C3_witness :
    ({ method := .GET, path := "/", handler := .viewHome } : Route).method
      = Method.GET ∧
    (corsConfig (fun _ => none)).methods = ["GET", "POST", "PUT"] ∧
    findRoute .POST "/" = none ∧ findRoute .PUT "/express" = none :=
  ⟨claim_C3_no_post_put_handlers.1 _ (by decide),
   claim_C3_no_post_put_handlers.2.1 (fun _ => none),
   (claim_C3_no_post_put_handlers.2.2.2 "/").1,
   (claim_C3_no_post_put_handlers.2.2.2 "/express").2⟩

/-- Claim C4: `index.js` registers no error-handling (four-argument)
middleware, no explicit 404 handler, and no process-level exception
handler — no recovery registration of any kind appears in its effect
sequence — so exceptions propagate to the Express/Node defaults and an
unhandled exception terminates the process. -/
theorem claim_C4_no_error_handling_registered (env : String → Option String) :
    (indexProgram env).countP AppEvent.isRecoveryReg = 0 ∧
    (indexProgram env).filter AppEvent.isRecoveryReg = [] :=
  ⟨rfl, rfl⟩

/-- Witness for C4 at a concrete environment. -/
theorem claim_C4_witness :
    (indexProgram (fun _ => none)).countP AppEvent.isRecoveryReg = 0 ∧
    (indexProgram (fun _ => none)).filter AppEvent.isRecoveryReg = [] :=
  claim_C4_no_error_handling_registered (fun _ => none)

/-- Counterexample to C5 as stated: the spec's claimed pipeline order
omits the URL-encoded body parser registered at `src/index.js` line 19,
so the trace of the concrete request GET "/" (with an empty environment
and no static files) differs from the spec's claimed order. -/
theorem claim_C5_counterexample :
    reqTrace (fun _ => none) (fun _ => false)
        { method := .GET, path := "/" }
      ≠ specClaimedPipeline := by
  decide

/-- Claim C5 as amended: for every request the static middleware does not
serve, the pipeline stages run in exactly this order — static-file
serving, JSON body parsing, URL-encoded body parsing, CORS checking,
cache-control header injection, router dispatch, and, when a route
matches, the controller and then EJS rendering. -/
theorem claim_C5_pipeline_order (env : String → Option String)
    (isStatic : String → Bool) (req : Request)
    (hs : isStatic req.path = false) :
    (∀ r, findRoute req.method req.path = some r →
      reqTrace env isStatic req =
        [.staticFiles, .jsonParse, .urlencodedParse, .corsCheck,
         .cacheControl, .routerDispatch, .controllerRun, .ejsRender]) ∧
    (findRoute req.method req.path = none →
      reqTrace env isStatic req =
        [.staticFiles, .jsonParse, .urlencodedParse, .corsCheck,
         .cacheControl, .routerDispatch]) := by
  constructor
  · intro r hr
    rw [reqTrace, runChain_nonstatic env isStatic req hs, hr]
  · intro hr
    rw [reqTrace, runChain_nonstatic env isStatic req hs, hr]

/-- Witness for C5 at the concrete requests GET "/express" (matched) and
GET "/missing" (unmatched). -/
theorem claim_C5_witness :
    reqTrace (fun _ => none) (fun _ => false)
        { method := .GET, path := "/express" }
      = [.staticFiles, .jsonParse, .urlencodedParse, .corsCheck,
         .cacheControl, .routerDispatch, .controllerRun, .ejsRender] ∧
    reqTrace (fun _ => none) (fun _ => false)
        { method := .GET, path := "/missing" }
      = [.staticFiles, .jsonParse, .urlencodedParse, .corsCheck,
         .cacheControl, .routerDispatch] :=
  ⟨(claim_C5_pipeline_order (fun _ => none) (fun _ => false)
      { method := .GET, path := "/express" } rfl).1
      { method := .GET, path := "/express", handler := .viewExpress } rfl,
   (claim_C5_pipeline_order (fun _ => none) (fun _ => false)
      { method := .GET, path := "/missing" } rfl).2 rfl⟩

/-- Claim C6: the server listens on the value of the environment variable
PORT, on "5000" whenever PORT is unset, and the CORS origin is taken
from the environment variable CLIENT_URL. -/
theorem claim_C6_port_and_cors_origin :
    (∀ s : String, s ≠ "" → port (some s) = s) ∧
    port none = "5000" ∧
    (∀ env, (corsConfig env).origin = env "CLIENT_URL") ∧
    (∀ env, AppEvent.listen (port (env "PORT")) ∈ indexProgram env) := by
  refine ⟨fun s hs => ?_, rfl, fun env => rfl, fun env => ?_⟩
  · simp [port, hs]
  · simp [indexProgram]

/-- Witness for C6 at concrete environments. -/
theorem claim_C6_witness :
    port (some "3000") = "3000" ∧ port none = "5000" ∧
    (corsConfig (fun _ => some "http://localhost:3000")).origin
      = some "http://localhost:3000" :=
  ⟨claim_C6_port_and_cors_origin.1 "3000" (by decide),
   claim_C6_port_and_cors_origin.2.1,
   claim_C6_port_and_cors_origin.2.2.1 (fun _ => some "http://localhost:3000")⟩

/-- Claim C7: GET "/", GET "/express" and GET "/http" each return status
200 with their respective rendered views, served from the "view"
directory through the EJS engine (the controller bodies are modelled
from the spec, `controller/note.controller.js` not being in the provided
source). -/
theorem claim_C7_get_routes_render_200 (env : String → Option String)
    (isStatic : String → Bool)
    (h1 : isStatic "/" = false) (h2 : isStatic "/express" = false)
    (h3 : isStatic "/http" = false) :
    handle env isStatic { method := .GET, path := "/" }
      = { status := 200, headers := corsHeaders env ++ cacheControlHeaders,
          body := .rendered viewsDir (controllerView .viewHome) } ∧
    handle env isStatic { method := .GET, path := "/express" }
      = { status := 200, headers := corsHeaders env ++ cacheControlHeaders,
          body := .rendered viewsDir (controllerView .viewExpress) } ∧
    handle env isStatic { method := .GET, path := "/http" }
      = { status := 200, headers := corsHeaders env ++ cacheControlHeaders,
          body := .rendered viewsDir (controllerView .viewHTTP) } ∧
    viewsDir = "view" ∧ viewEngine = "ejs" := by
  refine ⟨?_, ?_, ?_, rfl, rfl⟩
  · rw [handle, runChain_nonstatic env isStatic { method := .GET, path := "/" } h1]
    rfl
  · rw [handle,
      runChain_nonstatic env isStatic { method := .GET, path := "/express" } h2]
    rfl
  · rw [handle,
      runChain_nonstatic env isStatic { method := .GET, path := "/http" } h3]
    rfl

/-- Witness for C7 with no static files and an empty environment. -/
theorem claim_C7_witness :
    handle (fun _ => none) (fun _ => false) { method := .GET, path := "/" }
      = { status := 200,
          headers := corsHeaders (fun _ => none) ++ cacheControlHeaders,
          body := .rendered viewsDir (controllerView .viewHome) } ∧
    handle (fun _ => none) (fun _ => false) { method := .GET, path := "/express" }
      = { status := 200,
          headers := corsHeaders (fun _ => none) ++ cacheControlHeaders,
          body := .rendered viewsDir (controllerView .viewExpress) } ∧
    handle (fun _ => none) (fun _ => false) { method := .GET, path := "/http" }
      = { status := 200,
          headers := corsHeaders (fun _ => none) ++ cacheControlHeaders,
          body := .rendered viewsDir (controllerView .viewHTTP) } ∧
    viewsDir = "view" ∧ viewEngine = "ejs" :=
  claim_C7_get_routes_render_200 (fun _ => none) (fun _ => false) rfl rfl rfl

/-- Claim C8: every request the static middleware does not serve receives
the three cache-control headers (together with the CORS headers, these
are exactly its response headers); a request served from the "public"
directory is terminated by `express.static` with no response headers
from later middleware, bypassing both the cache-header and the CORS
middleware. -/
theorem claim_C8_cache_header_injection (env : String → Option String)
    (isStatic : String → Bool) (req : Request) :
    (isStatic req.path = false →
      (handle env isStatic req).headers
        = corsHeaders env ++ cacheControlHeaders ∧
      ∀ hd ∈ cacheControlHeaders, hd ∈ (handle env isStatic req).headers) ∧
    (isStatic req.path = true → (handle env isStatic req).headers = []) := by
  constructor
  · intro hs
    have he : (handle env isStatic req).headers
        = corsHeaders env ++ cacheControlHeaders := by
      rw [handle, runChain_nonstatic env isStatic req hs]
      cases hr : findRoute req.method req.path <;> rfl
    exact ⟨he, fun hd hm => by rw [he]; exact List.mem_append_right _ hm⟩
  · intro hs
    rw [handle, runChain_static env isStatic req hs]

/-- Witness for C8: a non-static request carries the cache headers; a
static-served request has none of them. -/
theorem claim_C8_witness :
    ((handle (fun _ => none) (fun _ => false)
        { method := .GET, path := "/x" }).headers
      = corsHeaders (fun _ => none) ++ cacheControlHeaders ∧
     ∀ hd ∈ cacheControlHeaders,
       hd ∈ (handle (fun _ => none) (fun _ => false)
         { method := .GET, path := "/x" }).headers) ∧
    (handle (fun _ => none) (fun _ => true)
        { method := .GET, path := "/app.css" }).headers = [] :=
  ⟨(claim_C8_cache_header_injection (fun _ => none) (fun _ => false)
      { method := .GET, path := "/x" }).1 rfl,
   (claim_C8_cache_header_injection (fun _ => none) (fun _ => true)
      { method := .GET, path := "/app.css" }).2 rfl⟩

/-- Claim C9: `connectDB` is called exactly once during startup, and the
call precedes `app.listen` in the top-level effect sequence of
`index.js`. -/
theorem claim_C9_connectdb_once_before_listen (env : String → Option String) :
    (indexProgram env).countP AppEvent.isConnectDB = 1 ∧
    (indexProgram env).countP AppEvent.isListen = 1 ∧
    (indexProgram env).findIdx AppEvent.isConnectDB <
      (indexProgram env).findIdx AppEvent.isListen := by
  refine ⟨rfl, rfl, ?_⟩
  have h1 : (indexProgram env).findIdx AppEvent.isConnectDB = 2 := rfl
  have h2 : (indexProgram env).findIdx AppEvent.isListen = 11 := rfl
  rw [h1, h2]
  decide

/-- Witness for C9 at a concrete environment. -/
theorem claim_C9_witness :
    (indexProgram (fun _ => none)).countP AppEvent.isConnectDB = 1 ∧
    (indexProgram (fun _ => none)).countP AppEvent.isListen = 1 ∧
    (indexProgram (fun _ => none)).findIdx AppEvent.isConnectDB <
      (indexProgram (fun _ => none)).findIdx AppEvent.isListen :=
  claim_C9_connectdb_once_before_listen (fun _ => none)

/-- Claim C10: the URL-encoded body parser (configured with
`extended: false`) and the JSON body parser both process every request
the static middleware does not serve, even though no registered route
accepts a request body. -/
theorem claim_C10_urlencoded_body_parsing (env : String → Option String)
    (isStatic : String → Bool) (req : Request)
    (hs : isStatic req.path = false) :
    (finalConn env isStatic req).urlencodedParsed = true ∧
    (finalConn env isStatic req).jsonParsed = true ∧
    urlencodedConfig.extended = false ∧
    Step.urlencodedParse ∈ chain := by
  refine ⟨?_, ?_, rfl, by decide⟩ <;>
    (rw [finalConn, runChain_nonstatic env isStatic req hs]
     cases hr : findRoute req.method req.path <;> rfl)

/-- Witness for C10 at the concrete request POST "/". -/
theorem claim_C10_witness :
    (finalConn (fun _ => none) (fun _ => false)
        { method := .POST, path := "/" }).urlencodedParsed = true ∧
    (finalConn (fun _ => none) (fun _ => false)
        { method := .POST, path := "/" }).jsonParsed = true ∧
    urlencodedConfig.extended = false ∧
    Step.urlencodedParse ∈ chain :=
  claim_C10_urlencoded_body_parsing (fun _ => none) (fun _ => false)
    { method := .POST, path := "/" } rfl

end NoteServer
